import Mathlib

/-!
Verification development for the AstraGuard Mission Phase Policy Engine and
Mission Phase State Machine.  The engine implementation
(state_machine/mission_phase_policy_engine.py, state_machine/state_engine.py,
config/mission_phase_policy_loader.py) is exercised only through its unit
tests in the repository; the definitions below are a shallow embedding of
that component, modelled from the specification and anchored on the concrete
behaviours asserted by tests/test_mission_phase_policy_engine.py.
Severity scores are embedded as rationals.
-/

namespace AstraGuard

/-- Modelled from the spec: MissionPhase enumeration of
state_machine/state_engine.py (missing from the sources; only its tests are
present).  Ordered phases LAUNCH, DEPLOYMENT, NOMINAL_OPS, PAYLOAD_OPS,
SAFE_MODE; SAFE_MODE is the most restrictive phase. -/
inductive MissionPhase where
  | LAUNCH
  | DEPLOYMENT
  | NOMINAL_OPS
  | PAYLOAD_OPS
  | SAFE_MODE
deriving DecidableEq, Repr

/-- String value of a mission phase, as the Python enum member value. -/
def MissionPhase.value : MissionPhase → String
  | .LAUNCH => "LAUNCH"
  | .DEPLOYMENT => "DEPLOYMENT"
  | .NOMINAL_OPS => "NOMINAL_OPS"
  | .PAYLOAD_OPS => "PAYLOAD_OPS"
  | .SAFE_MODE => "SAFE_MODE"

/-- Position of a phase in the nominal forward progression
LAUNCH, DEPLOYMENT, NOMINAL_OPS, PAYLOAD_OPS, with SAFE_MODE last. -/
def MissionPhase.index : MissionPhase → Nat
  | .LAUNCH => 0
  | .DEPLOYMENT => 1
  | .NOMINAL_OPS => 2
  | .PAYLOAD_OPS => 3
  | .SAFE_MODE => 4

/-- Modelled from the spec: SeverityLevel ordered enumeration
LOW < MEDIUM < HIGH < CRITICAL of the missing policy engine module. -/
inductive SeverityLevel where
  | LOW
  | MEDIUM
  | HIGH
  | CRITICAL
deriving DecidableEq, Repr

/-- Rank realising the order LOW < MEDIUM < HIGH < CRITICAL. -/
def SeverityLevel.rank : SeverityLevel → Nat
  | .LOW => 0
  | .MEDIUM => 1
  | .HIGH => 2
  | .CRITICAL => 3

/-- String value of a severity level, as the Python enum member value. -/
def SeverityLevel.value : SeverityLevel → String
  | .LOW => "LOW"
  | .MEDIUM => "MEDIUM"
  | .HIGH => "HIGH"
  | .CRITICAL => "CRITICAL"

/-- Modelled from the spec: EscalationLevel ordered enumeration
LOG_ONLY < ALERT_OPERATORS < CONTROLLED_ACTION < ESCALATE_SAFE_MODE of the
missing policy engine module. -/
inductive EscalationLevel where
  | LOG_ONLY
  | ALERT_OPERATORS
  | CONTROLLED_ACTION
  | ESCALATE_SAFE_MODE
deriving DecidableEq, Repr

/-- Rank realising the order
LOG_ONLY < ALERT_OPERATORS < CONTROLLED_ACTION < ESCALATE_SAFE_MODE. -/
def EscalationLevel.rank : EscalationLevel → Nat
  | .LOG_ONLY => 0
  | .ALERT_OPERATORS => 1
  | .CONTROLLED_ACTION => 2
  | .ESCALATE_SAFE_MODE => 3

/-- One step down the escalation order; LOG_ONLY stays put. -/
def EscalationLevel.downgrade : EscalationLevel → EscalationLevel
  | .ESCALATE_SAFE_MODE => .CONTROLLED_ACTION
  | .CONTROLLED_ACTION => .ALERT_OPERATORS
  | .ALERT_OPERATORS => .LOG_ONLY
  | .LOG_ONLY => .LOG_ONLY

/-- Modelled from the spec: the recognized optional keys of the anomaly
attributes mapping accepted by evaluate (recurrence_count,
simultaneous_faults, subsystem); unrecognized keys never influence the
decision, so the mapping is embedded by these three fields. -/
structure AnomalyAttributes where
  recurrence_count : Nat
  simultaneous_faults : Nat
  subsystem : Option String
deriving DecidableEq, Repr

/-- Empty attributes mapping. -/
def AnomalyAttributes.empty : AnomalyAttributes := ⟨0, 0, none⟩

/-- Modelled from the spec: per-phase PhasePolicyConfig of the missing
policy loader — description, threshold multiplier, allowed and forbidden
action sets, and the phase-specific persistence (recurrence) threshold and
the escalation level that persistent high-severity anomalies produce. -/
structure PhasePolicyConfig where
  description : String
  threshold_multiplier : ℚ
  allowed_actions : List String
  forbidden_actions : List String
  persistence_threshold : Nat
  persistence_escalation : EscalationLevel
deriving DecidableEq, Repr

/-- Modelled from the spec: the default phase policy table produced by the
missing MissionPhasePolicyLoader, anchored on the multipliers (LAUNCH 2.0,
NOMINAL_OPS 1.0, SAFE_MODE 0.8), action sets and persistence anchors
(NOMINAL_OPS threshold 3 escalating to safe mode, DEPLOYMENT threshold 2
yielding controlled action) asserted by the unit tests. -/
def defaultPolicy : MissionPhase → PhasePolicyConfig
  | .LAUNCH =>
      ⟨"Launch phase: no autonomy by default", 2,
       ["LOG_EVENT", "MONITOR"],
       ["FIRE_THRUSTERS", "RESTART_SERVICE", "PAYLOAD_OPERATIONS"],
       3, .ESCALATE_SAFE_MODE⟩
  | .DEPLOYMENT =>
      ⟨"Deployment phase: limited controlled autonomy", 1,
       ["LOG_EVENT", "MONITOR", "RESTART_SERVICE"],
       ["FIRE_THRUSTERS", "PAYLOAD_OPERATIONS"],
       2, .CONTROLLED_ACTION⟩
  | .NOMINAL_OPS =>
      ⟨"Nominal operations: standard autonomy", 1,
       ["LOG_EVENT", "MONITOR", "RESTART_SERVICE", "FIRE_THRUSTERS"],
       [],
       3, .ESCALATE_SAFE_MODE⟩
  | .PAYLOAD_OPS =>
      ⟨"Payload operations: protect the payload", 1,
       ["LOG_EVENT", "MONITOR", "RESTART_SERVICE", "PAYLOAD_OPERATIONS"],
       ["FIRE_THRUSTERS"],
       3, .ESCALATE_SAFE_MODE⟩
  | .SAFE_MODE =>
      ⟨"Safe mode: minimal monitoring only", 4/5,
       ["LOG_EVENT", "MONITOR"],
       ["RESTART_SERVICE", "FIRE_THRUSTERS", "PAYLOAD_OPERATIONS"],
       3, .ESCALATE_SAFE_MODE⟩

/-- Fixed classification threshold for CRITICAL. -/
def tCritical : ℚ := 9/10

/-- Fixed classification threshold for HIGH. -/
def tHigh : ℚ := 7/10

/-- Fixed classification threshold for MEDIUM. -/
def tMedium : ℚ := 2/5

/-- Classification of an effective score by the fixed ordered thresholds. -/
def classifyEffective (e : ℚ) : SeverityLevel :=
  if tCritical ≤ e then .CRITICAL
  else if tHigh ≤ e then .HIGH
  else if tMedium ≤ e then .MEDIUM
  else .LOW

/-- Modelled from the spec: the severity classifier of the missing policy
engine — effective score is the raw score divided by the multiplier, then
classified by the fixed shared thresholds; at multiplier 1.0 it reproduces
the calibration anchors 0.95 CRITICAL, 0.75 HIGH, 0.50 MEDIUM, 0.25 LOW of
the unit tests. -/
def classify_severity (raw_score : ℚ) (multiplier : ℚ) : SeverityLevel :=
  classifyEffective (raw_score / multiplier)

/-- Intermediate result of the escalation resolver, before the decision
record is assembled. -/
structure RawResolution where
  escalation : EscalationLevel
  action : String
  allowed : Bool
  reasoning : String
deriving DecidableEq, Repr

/-- Modelled from the spec: the recommended action a phase uses for a
controlled response, drawn from the allowed actions of the phase (the first
allowed action that is not pure logging or monitoring, falling back to
LOG_EVENT). -/
def pickControlledAction (cfg : PhasePolicyConfig) : String :=
  (cfg.allowed_actions.filter
    (fun a => a != "LOG_EVENT" && a != "MONITOR")).headD "LOG_EVENT"

/-- Modelled from the spec: phase-specific base mapping of the missing
escalation resolver for HIGH and MEDIUM severity — LAUNCH alerts operators
with no autonomy, the operational phases take a controlled action drawn
from their allowed actions. -/
def baseMapping (p : MissionPhase) (cfg : PhasePolicyConfig) : RawResolution :=
  match p with
  | .LAUNCH =>
      ⟨.ALERT_OPERATORS, "ALERT_OPERATORS", false,
       "LAUNCH phase base mapping: alert operators, no autonomous action"⟩
  | .SAFE_MODE =>
      ⟨.LOG_ONLY, "LOG_ONLY", false,
       "SAFE_MODE base mapping: log only"⟩
  | _ =>
      ⟨.CONTROLLED_ACTION, pickControlledAction cfg, true,
       "Base mapping: controlled action from the allowed actions of the phase"⟩

/-- Modelled from the spec: the escalation resolver of the missing policy
engine, rules in priority order — SAFE_MODE ceiling, CRITICAL escalation to
safe mode, persistence escalation for recurring high-severity anomalies,
phase base mapping for HIGH and MEDIUM, and LOG_ONLY for LOW. -/
def resolveEscalation (p : MissionPhase) (cfg : PhasePolicyConfig)
    (sev : SeverityLevel) (attrs : AnomalyAttributes) : RawResolution :=
  if p = .SAFE_MODE then
    ⟨.LOG_ONLY, "LOG_ONLY", false,
     "Already in SAFE_MODE: escalation capped at LOG_ONLY"⟩
  else if sev = .CRITICAL then
    ⟨.ESCALATE_SAFE_MODE, "ENTER_SAFE_MODE", true,
     "CRITICAL severity: escalate to safe mode"⟩
  else if SeverityLevel.HIGH.rank ≤ sev.rank ∧
      cfg.persistence_threshold ≤ attrs.recurrence_count then
    if cfg.persistence_escalation = .ESCALATE_SAFE_MODE then
      ⟨.ESCALATE_SAFE_MODE, "ENTER_SAFE_MODE", true,
       "Persistent high-severity anomaly: escalate to safe mode"⟩
    else
      ⟨cfg.persistence_escalation, pickControlledAction cfg, true,
       "Persistent high-severity anomaly: phase-specific lesser escalation"⟩
  else if sev = .HIGH ∨ sev = .MEDIUM then
    baseMapping p cfg
  else
    ⟨.LOG_ONLY, "LOG_EVENT", true,
     "LOW severity: log only, logging is always permitted"⟩

/-- Modelled from the spec: the forbidden-action veto of the missing
escalation resolver — a recommended action that appears in the forbidden
actions of the phase is rejected, the decision is downgraded one escalation
level with is_allowed false, and the recommendation falls back to logging. -/
def applyVeto (cfg : PhasePolicyConfig) (r : RawResolution) : RawResolution :=
  if r.action ∈ cfg.forbidden_actions then
    ⟨r.escalation.downgrade, "LOG_EVENT", false,
     r.reasoning ++ "; forbidden action vetoed, downgraded one level"⟩
  else r

/-- Base confidence contributed by the severity level. -/
def severityBaseConfidence : SeverityLevel → ℚ
  | .LOW => 1/2
  | .MEDIUM => 3/5
  | .HIGH => 7/10
  | .CRITICAL => 9/10

/-- Modelled from the spec: the confidence of a decision — monotonically
non-decreasing in severity and corroborating attributes, kept within the
unit interval. -/
def confidenceOf (sev : SeverityLevel) (attrs : AnomalyAttributes) : ℚ :=
  min 1 (severityBaseConfidence sev
    + ((min attrs.recurrence_count 5 : Nat) : ℚ) / 50
    + ((min attrs.simultaneous_faults 5 : Nat) : ℚ) / 50)

/-- Modelled from the spec: the immutable PolicyDecision record produced
by evaluate in the missing policy engine module. -/
structure PolicyDecision where
  mission_phase : String
  anomaly_type : String
  severity : String
  severity_score : ℚ
  escalation_level : EscalationLevel
  is_allowed : Bool
  recommended_action : String
  allowed_actions : List String
  confidence : ℚ
  reasoning : String
deriving DecidableEq, Repr

/-- Modelled from the spec: error taxonomy surfaced by the engine —
InvalidInput for a severity score outside the unit interval or an unknown
mission phase passed to evaluate. -/
inductive PolicyError where
  | InvalidInput
deriving DecidableEq, Repr

/-- Modelled from the spec: error returned by transition_to when the target
phase is unreachable from the current phase. -/
inductive TransitionError where
  | InvalidTransition
deriving DecidableEq, Repr

/-- Modelled from the spec: the core of evaluate for one phase under one
phase configuration — classify the raw score (the classifier is applied at
its default multiplier 1.0 inside evaluate, as fixed by the calibration and
scenario anchors of the unit tests), resolve the escalation, apply the
forbidden-action veto and assemble the decision record. -/
def evaluatePhaseWith (cfg : PhasePolicyConfig) (p : MissionPhase)
    (anomaly_type : String) (severity_score : ℚ)
    (attrs : AnomalyAttributes) : PolicyDecision :=
  let sev := classify_severity severity_score 1
  let r := applyVeto cfg (resolveEscalation p cfg sev attrs)
  ⟨p.value, anomaly_type, sev.value, severity_score, r.escalation,
   r.allowed, r.action, cfg.allowed_actions, confidenceOf sev attrs,
   r.reasoning⟩

/-- Modelled from the spec: evaluate under an explicit loaded policy table
(the engine is constructed from the table the loader returns); a severity
score outside the unit interval fails the call with InvalidInput. -/
def evaluateWith (table : MissionPhase → PhasePolicyConfig)
    (p : MissionPhase) (anomaly_type : String) (severity_score : ℚ)
    (attrs : AnomalyAttributes) : Except PolicyError PolicyDecision :=
  if 0 ≤ severity_score ∧ severity_score ≤ 1 then
    .ok (evaluatePhaseWith (table p) p anomaly_type severity_score attrs)
  else
    .error .InvalidInput

/-- Modelled from the spec: the public evaluate contract of the missing
policy engine, under the default loaded policy table. -/
def evaluate (p : MissionPhase) (anomaly_type : String)
    (severity_score : ℚ) (attrs : AnomalyAttributes) :
    Except PolicyError PolicyDecision :=
  evaluateWith defaultPolicy p anomaly_type severity_score attrs

/-- Modelled from the spec: phase-name lookup for callers that pass the
mission phase by name; an unknown name has no phase. -/
def parsePhase (name : String) : Option MissionPhase :=
  if name = "LAUNCH" then some .LAUNCH
  else if name = "DEPLOYMENT" then some .DEPLOYMENT
  else if name = "NOMINAL_OPS" then some .NOMINAL_OPS
  else if name = "PAYLOAD_OPS" then some .PAYLOAD_OPS
  else if name = "SAFE_MODE" then some .SAFE_MODE
  else none

/-- Modelled from the spec: evaluate for a caller-supplied phase name; an
unknown mission phase fails the single call with InvalidInput. -/
def evaluateByName (name : String) (anomaly_type : String)
    (severity_score : ℚ) (attrs : AnomalyAttributes) :
    Except PolicyError PolicyDecision :=
  match parsePhase name with
  | some p => evaluate p anomaly_type severity_score attrs
  | none => .error .InvalidInput

/-- Modelled from the spec: the get_phase_constraints view of a phase
configuration returned to callers. -/
structure PhaseConstraints where
  phase : String
  description : String
  allowed_actions : List String
  forbidden_actions : List String
  threshold_multiplier : ℚ
deriving DecidableEq, Repr

/-- Modelled from the spec: get_phase_constraints of the missing policy
engine, reading the default policy table. -/
def get_phase_constraints (p : MissionPhase) : PhaseConstraints :=
  ⟨p.value, (defaultPolicy p).description, (defaultPolicy p).allowed_actions,
   (defaultPolicy p).forbidden_actions, (defaultPolicy p).threshold_multiplier⟩

/-- Modelled from the spec: the transition table of the missing mission
phase state machine — a transition into SAFE_MODE is always permitted from
any phase, and a phase may move forward along the nominal progression
LAUNCH, DEPLOYMENT, NOMINAL_OPS, PAYLOAD_OPS; SAFE_MODE exits only through
a distinct recovery operation, never through this table. -/
def allowedTransition : MissionPhase → MissionPhase → Bool
  | _, .SAFE_MODE => true
  | .LAUNCH, .DEPLOYMENT => true
  | .LAUNCH, .NOMINAL_OPS => true
  | .LAUNCH, .PAYLOAD_OPS => true
  | .DEPLOYMENT, .NOMINAL_OPS => true
  | .DEPLOYMENT, .PAYLOAD_OPS => true
  | .NOMINAL_OPS, .PAYLOAD_OPS => true
  | _, _ => false

/-- Target reachable from the current phase along the nominal forward
progression LAUNCH, DEPLOYMENT, NOMINAL_OPS, PAYLOAD_OPS. -/
def forwardReachable (cur tgt : MissionPhase) : Prop :=
  cur ≠ .SAFE_MODE ∧ tgt ≠ .SAFE_MODE ∧ cur.index < tgt.index

instance (cur tgt : MissionPhase) : Decidable (forwardReachable cur tgt) := by
  unfold forwardReachable
  infer_instance

/-- Modelled from the spec: the mutable state owned by the state machine
and the engine — the single current phase, the loaded policy table, and the
audit log of transition reasons. -/
structure EngineState where
  phase : MissionPhase
  table : MissionPhase → PhasePolicyConfig
  transitionLog : List String

/-- Modelled from the spec: transition_to of the missing state machine —
validates the move against the transition table, mutates the phase and
records the reason on success, and returns InvalidTransition leaving the
state unchanged otherwise. -/
def transition_to (st : EngineState) (target : MissionPhase)
    (reason : String) : Except TransitionError Unit × EngineState :=
  if allowedTransition st.phase target then
    (.ok (), ⟨target, st.table, reason :: st.transitionLog⟩)
  else
    (.error .InvalidTransition, st)

/-- Modelled from the spec: evaluate as called through the engine state —
it reads the current phase and the loaded table and leaves the state
untouched (a pure function of phase, event and configuration). -/
def stateEvaluate (st : EngineState) (anomaly_type : String)
    (severity_score : ℚ) (attrs : AnomalyAttributes) :
    Except PolicyError PolicyDecision × EngineState :=
  (evaluateWith st.table st.phase anomaly_type severity_score attrs, st)

/-- The decision evaluate assembles for an in-range score, under the
default policy table. -/
def evaluatePhase (p : MissionPhase) (anomaly_type : String)
    (severity_score : ℚ) (attrs : AnomalyAttributes) : PolicyDecision :=
  evaluatePhaseWith (defaultPolicy p) p anomaly_type severity_score attrs

theorem evaluate_ok_of_bounds (p : MissionPhase) (t : String) (s : ℚ)
    (a : AnomalyAttributes) (h0 : 0 ≤ s) (h1 : s ≤ 1) :
    evaluate p t s a = .ok (evaluatePhase p t s a) := by
  unfold evaluate evaluateWith evaluatePhase
  rw [if_pos ⟨h0, h1⟩]

theorem evaluate_ok_inv {p : MissionPhase} {t : String} {s : ℚ}
    {a : AnomalyAttributes} {d : PolicyDecision}
    (h : evaluate p t s a = .ok d) : d = evaluatePhase p t s a := by
  unfold evaluate evaluateWith at h
  unfold evaluatePhase
  by_cases hb : 0 ≤ s ∧ s ≤ 1
  · rw [if_pos hb] at h
    exact (Except.ok.injEq _ _ ▸ h).symm
  · rw [if_neg hb] at h
    exact absurd h (by simp)

theorem classify_one (s : ℚ) : classify_severity s 1 = classifyEffective s := by
  unfold classify_severity
  norm_num

theorem classifyEffective_eq_CRITICAL (e : ℚ) :
    classifyEffective e = .CRITICAL ↔ tCritical ≤ e := by
  unfold classifyEffective
  split_ifs <;> simp_all

theorem classifyEffective_eq_HIGH (e : ℚ) :
    classifyEffective e = .HIGH ↔ tHigh ≤ e ∧ e < tCritical := by
  unfold classifyEffective tCritical tHigh tMedium
  split_ifs <;> simp_all <;> intros <;> linarith

theorem classifyEffective_eq_MEDIUM (e : ℚ) :
    classifyEffective e = .MEDIUM ↔ tMedium ≤ e ∧ e < tHigh := by
  unfold classifyEffective tCritical tHigh tMedium
  split_ifs <;> simp_all <;> intros <;> linarith

theorem classifyEffective_eq_LOW (e : ℚ) :
    classifyEffective e = .LOW ↔ e < tMedium := by
  unfold classifyEffective tCritical tHigh tMedium
  split_ifs <;> simp_all <;> intros <;> linarith

/-- C4: the severity classifier computes the effective score as the raw
score divided by the multiplier and classifies it by the fixed ordered
thresholds (critical, high, medium, else low), and at multiplier 1.0 it
reproduces the four calibration anchors exactly: 0.95 CRITICAL, 0.75 HIGH,
0.50 MEDIUM, 0.25 LOW. -/
theorem classifier_thresholds_and_anchors :
    (0 < tMedium ∧ tMedium < tHigh ∧ tHigh < tCritical) ∧
    (∀ raw mult : ℚ, classify_severity raw mult =
      classifyEffective (raw / mult)) ∧
    (∀ e : ℚ,
      (classifyEffective e = .CRITICAL ↔ tCritical ≤ e) ∧
      (classifyEffective e = .HIGH ↔ tHigh ≤ e ∧ e < tCritical) ∧
      (classifyEffective e = .MEDIUM ↔ tMedium ≤ e ∧ e < tHigh) ∧
      (classifyEffective e = .LOW ↔ e < tMedium)) ∧
    classify_severity (19/20) 1 = .CRITICAL ∧
    classify_severity (3/4) 1 = .HIGH ∧
    classify_severity (1/2) 1 = .MEDIUM ∧
    classify_severity (1/4) 1 = .LOW := by
  refine ⟨⟨?_, ?_, ?_⟩, fun raw mult => rfl,
    fun e => ⟨classifyEffective_eq_CRITICAL e, classifyEffective_eq_HIGH e,
      classifyEffective_eq_MEDIUM e, classifyEffective_eq_LOW e⟩,
    ?_, ?_, ?_, ?_⟩ <;>
    norm_num [classify_severity, classifyEffective, tCritical, tHigh, tMedium]

/-- C2: once in SAFE_MODE, every evaluation of an in-range severity score
returns escalation level LOG_ONLY, is_allowed false, and recommended
action LOG_ONLY, for every anomaly type and attributes — a hard ceiling in
the most restrictive phase. -/
theorem safe_mode_ceiling (t : String) (s : ℚ) (a : AnomalyAttributes)
    (h0 : 0 ≤ s) (h1 : s ≤ 1) :
    (evaluate .SAFE_MODE t s a).map
      (fun d => (d.escalation_level, d.is_allowed, d.recommended_action)) =
    .ok (.LOG_ONLY, false, "LOG_ONLY") := by
  rw [evaluate_ok_of_bounds _ _ _ _ h0 h1]
  simp only [Except.map]
  unfold evaluatePhase evaluatePhaseWith resolveEscalation applyVeto defaultPolicy
  norm_num
  decide

/-- Witness for C2 at the concrete test input: SAFE_MODE, power fault,
score 0.95. -/
theorem safe_mode_ceiling_witness :
    (evaluate .SAFE_MODE "power_fault" (19/20) AnomalyAttributes.empty).map
      (fun d => (d.escalation_level, d.is_allowed, d.recommended_action)) =
    .ok (.LOG_ONLY, false, "LOG_ONLY") :=
  safe_mode_ceiling "power_fault" (19/20) AnomalyAttributes.empty
    (by norm_num) (by norm_num)

/-- C3: in every phase other than SAFE_MODE, a CRITICAL classified severity
makes evaluate return escalation level ESCALATE_SAFE_MODE, recommended
action ENTER_SAFE_MODE, and is_allowed true; in particular the LAUNCH
power-fault scenario at score 0.95 escalates to safe mode. -/
theorem critical_escalates_to_safe_mode :
    (∀ (p : MissionPhase) (t : String) (s : ℚ) (a : AnomalyAttributes),
      p ≠ .SAFE_MODE → 0 ≤ s → s ≤ 1 →
      classify_severity s 1 = .CRITICAL →
      (evaluate p t s a).map
        (fun d => (d.escalation_level, d.recommended_action, d.is_allowed)) =
      .ok (.ESCALATE_SAFE_MODE, "ENTER_SAFE_MODE", true)) ∧
    (evaluate .LAUNCH "power_fault" (19/20) AnomalyAttributes.empty).map
      (fun d => (d.escalation_level, d.recommended_action)) =
    .ok (.ESCALATE_SAFE_MODE, "ENTER_SAFE_MODE") := by
  constructor
  · intro p t s a hp h0 h1 hsev
    rw [evaluate_ok_of_bounds _ _ _ _ h0 h1]
    simp only [Except.map]
    unfold evaluatePhase evaluatePhaseWith
    rw [hsev]
    cases p <;>
      simp [resolveEscalation, applyVeto, defaultPolicy] at hp ⊢
  · rw [evaluate_ok_of_bounds _ _ _ _ (by norm_num) (by norm_num)]
    simp only [Except.map]
    unfold evaluatePhase evaluatePhaseWith classify_severity classifyEffective
      resolveEscalation applyVeto defaultPolicy
    norm_num [tCritical, tHigh, tMedium]
    decide

/-- C10: a severity score outside the unit interval fails the single
evaluate call with InvalidInput, an unknown mission phase name fails the
call with InvalidInput, and every in-range score on a known phase produces
a decision with no error. -/
theorem invalid_input_fails_single_call :
    (∀ (p : MissionPhase) (t : String) (s : ℚ) (a : AnomalyAttributes),
      s < 0 ∨ 1 < s → evaluate p t s a = .error .InvalidInput) ∧
    (∀ (name t : String) (s : ℚ) (a : AnomalyAttributes),
      parsePhase name = none →
      evaluateByName name t s a = .error .InvalidInput) ∧
    (∀ (p : MissionPhase) (t : String) (s : ℚ) (a : AnomalyAttributes),
      0 ≤ s → s ≤ 1 → evaluate p t s a = .ok (evaluatePhase p t s a)) := by
  refine ⟨?_, ?_, fun p t s a h0 h1 => evaluate_ok_of_bounds p t s a h0 h1⟩
  · intro p t s a h
    unfold evaluate evaluateWith
    rw [if_neg]
    rcases h with h | h
    · exact fun hc => absurd hc.1 (not_le.mpr h)
    · exact fun hc => absurd hc.2 (not_le.mpr h)
  · intro name t s a h
    unfold evaluateByName
    rw [h]

/-- C8: evaluate is deterministic and effect-free on the engine state: a
call leaves the state unchanged, and a second call with the identical
phase, anomaly type, severity score, attributes and loaded configuration
returns a PolicyDecision equal in every field. -/
theorem evaluate_deterministic (st : EngineState) (t : String) (s : ℚ)
    (a : AnomalyAttributes) :
    (stateEvaluate st t s a).2 = st ∧
    (stateEvaluate (stateEvaluate st t s a).2 t s a).1 =
      (stateEvaluate st t s a).1 := by
  exact ⟨rfl, rfl⟩

/-- C9: transition_to succeeds exactly when the target is SAFE_MODE (the
escalation edge, permitted from every phase) or is strictly ahead of the
current phase along the nominal forward progression; otherwise it returns
InvalidTransition — its result is always one of the two, never a crash —
and leaves the current phase unchanged. -/
theorem transition_to_validity (st : EngineState) (tgt : MissionPhase)
    (reason : String) :
    ((transition_to st tgt reason).1 = .ok () ↔
      (tgt = .SAFE_MODE ∨ forwardReachable st.phase tgt)) ∧
    ((transition_to st tgt reason).1 = .ok () ∨
      (transition_to st tgt reason).1 = .error .InvalidTransition) ∧
    ((transition_to st tgt reason).1 = .error .InvalidTransition →
      (transition_to st tgt reason).2.phase = st.phase) := by
  obtain ⟨cur, table, log⟩ := st
  unfold transition_to
  refine ⟨?_, ?_, ?_⟩
  · by_cases h : allowedTransition cur tgt = true
    · rw [if_pos h]
      simp only [true_iff]
      revert h
      unfold allowedTransition forwardReachable MissionPhase.index
      cases cur <;> cases tgt <;> decide
    · rw [if_neg h]
      simp only [reduceCtorEq, false_iff]
      revert h
      unfold allowedTransition forwardReachable MissionPhase.index
      cases cur <;> cases tgt <;> decide
  · by_cases h : allowedTransition cur tgt = true
    · rw [if_pos h]; exact Or.inl rfl
    · rw [if_neg h]; exact Or.inr rfl
  · by_cases h : allowedTransition cur tgt = true
    · rw [if_pos h]; intro hc; exact absurd hc (by simp)
    · rw [if_neg h]; intro _; rfl

/-- Witness for C9 at a concrete rejected transition: SAFE_MODE back to
LAUNCH is not an escalation edge, is refused, and the phase stays put. -/
theorem transition_to_validity_witness :
    ¬ ((transition_to ⟨.SAFE_MODE, defaultPolicy, []⟩ .LAUNCH "recover").1 =
        .ok ()) ∧
    (transition_to ⟨.SAFE_MODE, defaultPolicy, []⟩ .LAUNCH "recover").2.phase =
      .SAFE_MODE := by
  have h := transition_to_validity ⟨.SAFE_MODE, defaultPolicy, []⟩ .LAUNCH "recover"
  refine ⟨fun hc => ?_, ?_⟩
  · have := h.1.mp hc
    revert this
    decide
  · rcases h.2.1 with hok | herr
    · exact absurd (h.1.mp hok) (by decide)
    · exact h.2.2 herr

/-- C6: persistence escalation is phase-specific at HIGH classified
severity: recurrence count at least 3 in NOMINAL_OPS escalates to
ESCALATE_SAFE_MODE, while recurrence count at least 2 in DEPLOYMENT yields
only CONTROLLED_ACTION rather than full safe-mode escalation. -/
theorem persistence_escalation_phase_specific (t : String) (s : ℚ)
    (a : AnomalyAttributes) (h0 : 0 ≤ s) (h1 : s ≤ 1)
    (hsev : classify_severity s 1 = .HIGH) :
    (3 ≤ a.recurrence_count →
      (evaluate .NOMINAL_OPS t s a).map (fun d => d.escalation_level) =
        .ok .ESCALATE_SAFE_MODE) ∧
    (2 ≤ a.recurrence_count →
      (evaluate .DEPLOYMENT t s a).map (fun d => d.escalation_level) =
        .ok .CONTROLLED_ACTION) := by
  constructor
  · intro hr
    rw [evaluate_ok_of_bounds _ _ _ _ h0 h1]
    simp only [Except.map]
    unfold evaluatePhase evaluatePhaseWith
    rw [hsev]
    simp [resolveEscalation, applyVeto, defaultPolicy, SeverityLevel.rank, hr]
  · intro hr
    rw [evaluate_ok_of_bounds _ _ _ _ h0 h1]
    simp only [Except.map]
    unfold evaluatePhase evaluatePhaseWith
    rw [hsev]
    simp [resolveEscalation, applyVeto, defaultPolicy, SeverityLevel.rank, hr,
      pickControlledAction] <;> decide

/-- Witness for C6 at the concrete test inputs: NOMINAL_OPS power fault at
0.75 with recurrence 3, and DEPLOYMENT thermal fault at 0.75 with
recurrence 2. -/
theorem persistence_escalation_phase_specific_witness :
    ((evaluate .NOMINAL_OPS "power_fault" (3/4) ⟨3, 0, none⟩).map
        (fun d => d.escalation_level) = .ok .ESCALATE_SAFE_MODE) ∧
    ((evaluate .DEPLOYMENT "thermal_fault" (3/4) ⟨2, 0, none⟩).map
        (fun d => d.escalation_level) = .ok .CONTROLLED_ACTION) :=
  ⟨(persistence_escalation_phase_specific "power_fault" (3/4) ⟨3, 0, none⟩
      (by norm_num) (by norm_num)
      (by norm_num [classify_severity, classifyEffective, tCritical, tHigh,
        tMedium])).1 (by decide),
   (persistence_escalation_phase_specific "thermal_fault" (3/4) ⟨2, 0, none⟩
      (by norm_num) (by norm_num)
      (by norm_num [classify_severity, classifyEffective, tCritical, tHigh,
        tMedium])).2 (by decide)⟩

/-- C5: when no higher-priority rule applies (recurrence below the phase
persistence threshold) and the classified severity is HIGH or MEDIUM,
LAUNCH returns ALERT_OPERATORS with is_allowed false — in particular the
thermal-fault scenario at 0.75 — while NOMINAL_OPS and PAYLOAD_OPS return
CONTROLLED_ACTION with is_allowed true and a recommended action drawn from
the allowed actions of the phase. -/
theorem base_mapping_high_and_medium :
    (∀ (t : String) (s : ℚ) (a : AnomalyAttributes), 0 ≤ s → s ≤ 1 →
      (classify_severity s 1 = .HIGH ∨ classify_severity s 1 = .MEDIUM) →
      a.recurrence_count < (defaultPolicy .LAUNCH).persistence_threshold →
      (evaluate .LAUNCH t s a).map
        (fun d => (d.escalation_level, d.is_allowed)) =
      .ok (.ALERT_OPERATORS, false)) ∧
    ((evaluate .LAUNCH "thermal_fault" (3/4) AnomalyAttributes.empty).map
        (fun d => (d.is_allowed, d.escalation_level)) =
      .ok (false, .ALERT_OPERATORS)) ∧
    (∀ (p : MissionPhase), p = .NOMINAL_OPS ∨ p = .PAYLOAD_OPS →
      ∀ (t : String) (s : ℚ) (a : AnomalyAttributes), 0 ≤ s → s ≤ 1 →
      (classify_severity s 1 = .HIGH ∨ classify_severity s 1 = .MEDIUM) →
      a.recurrence_count < (defaultPolicy p).persistence_threshold →
      (evaluate p t s a).map
        (fun d => (d.escalation_level, d.is_allowed, d.recommended_action)) =
      .ok (.CONTROLLED_ACTION, true, "RESTART_SERVICE") ∧
      "RESTART_SERVICE" ∈ (defaultPolicy p).allowed_actions) := by
  refine ⟨?_, ?_, ?_⟩
  · intro t s a h0 h1 hsev hr
    have hnr : ¬ (3 : Nat) ≤ a.recurrence_count := by
      simpa [defaultPolicy] using not_le.mpr hr
    rw [evaluate_ok_of_bounds _ _ _ _ h0 h1]
    simp only [Except.map]
    unfold evaluatePhase evaluatePhaseWith
    rcases hsev with hs | hs <;> rw [hs] <;>
      simp [resolveEscalation, applyVeto, baseMapping, defaultPolicy,
        SeverityLevel.rank, hnr] <;> decide
  · rw [evaluate_ok_of_bounds _ _ _ _ (by norm_num) (by norm_num)]
    simp only [Except.map]
    unfold evaluatePhase evaluatePhaseWith classify_severity classifyEffective
      resolveEscalation applyVeto baseMapping defaultPolicy
      AnomalyAttributes.empty
    norm_num [tCritical, tHigh, tMedium, SeverityLevel.rank]
    decide
  · rintro p (rfl | rfl) t s a h0 h1 hsev hr <;>
    · have hnr : ¬ (3 : Nat) ≤ a.recurrence_count := by
        simpa [defaultPolicy] using not_le.mpr hr
      rw [evaluate_ok_of_bounds _ _ _ _ h0 h1]
      simp only [Except.map]
      unfold evaluatePhase evaluatePhaseWith
      rcases hsev with hs | hs <;> rw [hs] <;>
        simp [resolveEscalation, applyVeto, baseMapping, defaultPolicy,
          SeverityLevel.rank, pickControlledAction, hnr] <;> decide

theorem resolve_action_not_forbidden (p : MissionPhase)
    (sv : SeverityLevel) (a : AnomalyAttributes) :
    (resolveEscalation p (defaultPolicy p) sv a).action ∉
      (get_phase_constraints p).forbidden_actions := by
  unfold get_phase_constraints
  cases p <;> cases sv <;>
    simp [resolveEscalation, baseMapping, pickControlledAction, defaultPolicy,
      SeverityLevel.rank] <;>
    first
      | decide
      | (split_ifs <;> decide)

theorem applyVeto_default (p : MissionPhase) (sv : SeverityLevel)
    (a : AnomalyAttributes) :
    applyVeto (defaultPolicy p) (resolveEscalation p (defaultPolicy p) sv a) =
    resolveEscalation p (defaultPolicy p) sv a := by
  have hna := resolve_action_not_forbidden p sv a
  unfold get_phase_constraints at hna
  unfold applyVeto
  rw [if_neg hna]

/-- C1: the decision returned by evaluate never recommends an action that
is in the forbidden actions of the phase constraints; and whenever the
resolved rule would produce a forbidden action under a policy
configuration, the assembled decision is downgraded one escalation level
with is_allowed false. -/
theorem no_forbidden_action_recommended :
    (∀ (p : MissionPhase) (t : String) (s : ℚ) (a : AnomalyAttributes),
      0 ≤ s → s ≤ 1 → ∀ d, evaluate p t s a = .ok d →
        d.recommended_action ∉ (get_phase_constraints p).forbidden_actions) ∧
    (∀ (cfg : PhasePolicyConfig) (p : MissionPhase) (t : String) (s : ℚ)
        (a : AnomalyAttributes),
      (resolveEscalation p cfg (classify_severity s 1) a).action ∈
          cfg.forbidden_actions →
      (evaluatePhaseWith cfg p t s a).escalation_level =
        (resolveEscalation p cfg (classify_severity s 1) a).escalation.downgrade ∧
      (evaluatePhaseWith cfg p t s a).is_allowed = false) := by
  constructor
  · intro p t s a h0 h1 d hd
    have hdd := evaluate_ok_inv hd
    subst hdd
    have hproj : (evaluatePhase p t s a).recommended_action =
        (applyVeto (defaultPolicy p) (resolveEscalation p (defaultPolicy p)
          (classify_severity s 1) a)).action := rfl
    rw [hproj, applyVeto_default]
    exact resolve_action_not_forbidden p (classify_severity s 1) a
  · intro cfg p t s a h
    have hv : applyVeto cfg
        (resolveEscalation p cfg (classify_severity s 1) a) =
        ⟨(resolveEscalation p cfg (classify_severity s 1) a).escalation.downgrade,
         "LOG_EVENT", false,
         (resolveEscalation p cfg (classify_severity s 1) a).reasoning ++
           "; forbidden action vetoed, downgraded one level"⟩ := by
      unfold applyVeto
      rw [if_pos h]
    constructor
    · show (applyVeto cfg
        (resolveEscalation p cfg (classify_severity s 1) a)).escalation = _
      rw [hv]
    · show (applyVeto cfg
        (resolveEscalation p cfg (classify_severity s 1) a)).allowed = false
      rw [hv]

theorem classifyEffective_rank_mono {e1 e2 : ℚ} (h : e1 ≤ e2) :
    (classifyEffective e1).rank ≤ (classifyEffective e2).rank := by
  unfold classifyEffective tCritical tHigh tMedium
  split_ifs <;> simp_all [SeverityLevel.rank] <;> linarith

theorem resolvedEscalation_rank_mono (p : MissionPhase)
    (a : AnomalyAttributes) {sv1 sv2 : SeverityLevel}
    (h : sv1.rank ≤ sv2.rank) :
    (applyVeto (defaultPolicy p)
      (resolveEscalation p (defaultPolicy p) sv1 a)).escalation.rank ≤
    (applyVeto (defaultPolicy p)
      (resolveEscalation p (defaultPolicy p) sv2 a)).escalation.rank := by
  rw [applyVeto_default, applyVeto_default]
  by_cases hrec : (defaultPolicy p).persistence_threshold ≤
      a.recurrence_count <;>
    cases p <;> cases sv1 <;> cases sv2 <;>
      simp_all [resolveEscalation, baseMapping, pickControlledAction,
        defaultPolicy, SeverityLevel.rank, EscalationLevel.rank] <;>
      first
        | decide
        | (split_ifs <;> decide)

/-- C7: for a fixed mission phase, anomaly type and attributes, the
escalation level returned by evaluate is monotonically non-decreasing in
the severity score, in the order LOG_ONLY, ALERT_OPERATORS,
CONTROLLED_ACTION, ESCALATE_SAFE_MODE realised by the rank function. -/
theorem escalation_monotone_in_score (p : MissionPhase) (t : String)
    (a : AnomalyAttributes) (s1 s2 : ℚ) (h12 : s1 ≤ s2)
    (d1 d2 : PolicyDecision)
    (hd1 : evaluate p t s1 a = .ok d1) (hd2 : evaluate p t s2 a = .ok d2) :
    d1.escalation_level.rank ≤ d2.escalation_level.rank := by
  have e1 := evaluate_ok_inv hd1
  have e2 := evaluate_ok_inv hd2
  subst e1; subst e2
  have hsev : (classify_severity s1 1).rank ≤ (classify_severity s2 1).rank := by
    rw [classify_one, classify_one]
    exact classifyEffective_rank_mono h12
  exact resolvedEscalation_rank_mono p a hsev

/-- Witness for C7 at concrete inputs: in NOMINAL_OPS the escalation at
score 0.25 is no higher than the escalation at score 0.95. -/
theorem escalation_monotone_in_score_witness :
    (evaluatePhase .NOMINAL_OPS "power_fault" (1/4)
        AnomalyAttributes.empty).escalation_level.rank ≤
    (evaluatePhase .NOMINAL_OPS "power_fault" (19/20)
        AnomalyAttributes.empty).escalation_level.rank :=
  escalation_monotone_in_score .NOMINAL_OPS "power_fault"
    AnomalyAttributes.empty (1/4) (19/20) (by norm_num) _ _
    (evaluate_ok_of_bounds _ _ _ _ (by norm_num) (by norm_num))
    (evaluate_ok_of_bounds _ _ _ _ (by norm_num) (by norm_num))

end AstraGuard
